import Mathlib

/-!
Verification of the CSIRO Towed Camera pipeline core.

Shallow embedding of `src/towed_camera.pipeline.py` (class `TowedCameraPipeline`):
the import/classification phase (`_import`, `_create_hard_link`,
`_import_data_files`, `_import_still_images`, `_import_video_files`) and the
packaging phase (`_package`), which loads the TAG telemetry CSV, floors its
timestamps to whole seconds, and correlates each visual asset with a telemetry
record by exact (JPG) or nearest (MP4) timestamp match.

Times are modelled as `Int` microseconds since the Unix epoch (pandas stores
datetimes at fixed sub-second resolution; microseconds suffice for the
`%Y-%m-%d %H:%M:%S.%f` source format).  Python exceptions that escape a
function are modelled with `Except` / an explicit error component; exceptions
that the source catches are folded into the modelled control flow.
-/

set_option autoImplicit false

namespace TowedCamera

/-! ## Character-list string utilities

The Python code uses `str.split`, `str.rsplit`, `str.endswith`, substring
tests (`"_THUMB" in name`) and `str.lower`.  These are re-implemented over
`List Char` by structural recursion so that every definition reduces in the
kernel. -/

/-- Python `s.split(sep)` on character lists: splits at every occurrence of `sep`,
keeping empty groups, like Python `str.split` with an explicit separator. -/
def splitOnChar (sep : Char) : List Char → List (List Char)
  | [] => [[]]
  | c :: rest =>
    let r := splitOnChar sep rest
    if c = sep then [] :: r
    else
      match r with
      | [] => [[c]]
      | g :: gs => (c :: g) :: gs

/-- Python `stem.split("_")` as a list of strings. -/
def splitUnderscore (s : String) : List String :=
  (splitOnChar '_' s.toList).map String.mk

/-- Split a character list at its LAST `'.'`: `some (before, after)`, or
`none` when no dot occurs.  Models Python `name.rsplit(".", 1)` unpacked into
two variables, which raises `ValueError` exactly when no dot occurs. -/
def rsplitLastDot : List Char → Option (List Char × List Char)
  | [] => none
  | c :: cs =>
    match rsplitLastDot cs with
    | some (pre, post) => some (c :: pre, post)
    | none => if c = '.' then some ([], cs) else none

/-- Python `name.rsplit(".", 1)` returning `(base, extension)` when the name
contains a dot. -/
def rsplitDot (s : String) : Option (String × String) :=
  (rsplitLastDot s.toList).map fun p => (String.mk p.1, String.mk p.2)

/-- Does `hay` start with `needle`? -/
def hasPrefixL : List Char → List Char → Bool
  | [], _ => true
  | _ :: _, [] => false
  | n :: ns, h :: hs => n == h && hasPrefixL ns hs

/-- Does `hay` contain `needle` as a contiguous substring? -/
def hasSubstrL (needle : List Char) : List Char → Bool
  | [] => hasPrefixL needle []
  | h :: hs => hasPrefixL needle (h :: hs) || hasSubstrL needle hs

/-- Python `p in s` (substring containment). -/
def containsSub (s p : String) : Bool :=
  hasSubstrL p.toList s.toList

/-- Python `s.endswith(p)`. -/
def strEndsWith (s p : String) : Bool :=
  let a := s.toList
  let b := p.toList
  decide (b.length ≤ a.length) && (a.drop (a.length - b.length) == b)

/-- ASCII lower-casing of one character (what `str.lower` does to the
extensions appearing here, which are ASCII). -/
def lowerChar (c : Char) : Char :=
  if 65 ≤ c.toNat ∧ c.toNat ≤ 90 then Char.ofNat (c.toNat + 32) else c

/-- Python `s.lower()` for ASCII strings. -/
def lowerStr (s : String) : String :=
  String.mk (s.toList.map lowerChar)

/-! ## Timestamps

`parseCompact` models `pd.to_datetime(tok, format="%Y%m%dT%H%M%SZ")` from
line 265 of the source: a fixed-width 16-character token, validated as a real
calendar date-time, converted to microseconds since the Unix epoch.  The
calendar arithmetic is the standard civil-from-days construction. -/

/-- Gregorian leap year. -/
def isLeap (y : Nat) : Bool :=
  (y % 4 == 0 && y % 100 != 0) || y % 400 == 0

/-- Days in a month of a given year. -/
def daysInMonth (y m : Nat) : Nat :=
  if m = 2 then (if isLeap y then 29 else 28)
  else if m = 4 ∨ m = 6 ∨ m = 9 ∨ m = 11 then 30
  else 31

/-- Days from the civil epoch 1970-01-01 to `y-m-d` (valid for `1 ≤ y`),
as an integer (dates before 1970 are negative). -/
def daysFromCivil (y m d : Nat) : Int :=
  let y' : Nat := if m ≤ 2 then y - 1 else y
  let era : Nat := y' / 400
  let yoe : Nat := y' % 400
  let doy : Nat := (153 * (if m > 2 then m - 3 else m + 9) + 2) / 5 + (d - 1)
  let doe : Nat := yoe * 365 + yoe / 4 - yoe / 100 + doy
  (era * 146097 + doe : Nat) - (719468 : Int)

/-- Microseconds since the Unix epoch of `y-m-d h:mi:s`. -/
def epochMicro (y m d h mi s : Nat) : Int :=
  (daysFromCivil y m d * 86400 + (h * 3600 + mi * 60 + s : Nat)) * 1000000

/-- Decimal digit value of a character, if it is a digit. -/
def digitVal (c : Char) : Option Nat :=
  if 48 ≤ c.toNat ∧ c.toNat ≤ 57 then some (c.toNat - 48) else none

/-- Two-digit decimal number. -/
def twoDigits (a b : Char) : Option Nat := do
  let x ← digitVal a
  let y ← digitVal b
  pure (x * 10 + y)

/-- Model of `pd.to_datetime(tok, format="%Y%m%dT%H%M%SZ")`: parse a compact
`YYYYMMDDTHHMMSSZ` token into epoch microseconds, validating the calendar
date and the time-of-day ranges; `none` models the `ValueError` raised on a
malformed token. -/
def parseCompact (s : String) : Option Int :=
  match s.toList with
  | [y1, y2, y3, y4, m1, m2, d1, d2, t, h1, h2, mi1, mi2, s1, s2, z] =>
    if t = 'T' ∧ z = 'Z' then do
      let yh ← twoDigits y1 y2
      let yl ← twoDigits y3 y4
      let mo ← twoDigits m1 m2
      let d ← twoDigits d1 d2
      let h ← twoDigits h1 h2
      let mi ← twoDigits mi1 mi2
      let ss ← twoDigits s1 s2
      let y := yh * 100 + yl
      if 1 ≤ y ∧ 1 ≤ mo ∧ mo ≤ 12 ∧ 1 ≤ d ∧ d ≤ daysInMonth y mo
          ∧ h ≤ 23 ∧ mi ≤ 59 ∧ ss ≤ 59 then
        pure (epochMicro y mo d h mi ss)
      else none
    else none
  | _ => none

/-! ## Telemetry table (lines 230–245 of the source)

A raw CSV row carries its `FinalTime` cell (already `none` when the cell does
not parse under `%Y-%m-%d %H:%M:%S.%f` — parsing of that format is abstracted
to its success/value outcome) and an opaque payload standing for the sensor
columns (`UsblLatitude`, `Pres`, `Pitch`, ...), which `_package` consumes
opaquely and echoes into the manifest. -/

structure RawRecord where
  finalTimeRaw : Option Int
  payload : Nat
deriving DecidableEq, Repr

structure TelemetryRecord where
  finalTime : Int
  payload : Nat
deriving DecidableEq, Repr

/-- Pandas `.dt.floor("s")` on an epoch-microsecond value: floor to the whole
second. -/
def floorSec (t : Int) : Int :=
  Int.ediv t 1000000 * 1000000

/-- Lines 238–242: `pd.to_datetime(df["FinalTime"], format=...).dt.floor("s")`.
Any unparseable cell raises `ValueError` for the whole column (`none`); on
success every timestamp is floored to the second. -/
def loadTable : List RawRecord → Option (List TelemetryRecord)
  | [] => some []
  | rr :: rest =>
    match rr.finalTimeRaw with
    | none => none
    | some tt => (loadTable rest).map fun tbl => ⟨floorSec tt, rr.payload⟩ :: tbl

/-! ## Temporal matcher (lines 268–284 of the source) -/

/-- Value `abs(record_time - target)`, the per-record value of
`abs(sensor_data_df["FinalTime"] - target_datetime)`. -/
def timeDiff (t : Int) (r : TelemetryRecord) : Nat :=
  (r.finalTime - t).natAbs

/-- Line 270: `sensor_data_df.loc[sensor_data_df["FinalTime"] == target]`
followed by `.iloc[0]` at line 280 — the first record (in table order) whose
floored timestamp equals the target exactly; `none` when no record matches
(the `matching_row.empty` case). -/
def matchJpg (t : Int) (table : List TelemetryRecord) : Option TelemetryRecord :=
  (table.filter fun r => r.finalTime == t).head?

/-- Lines 273–274: `time_diffs.idxmin()` then `df.loc[...]` — the first
record (in table order) minimizing the absolute time difference; `none` only
on an empty table (where `idxmin` raises `ValueError`). -/
def idxminAbs (t : Int) : List TelemetryRecord → Option TelemetryRecord
  | [] => none
  | r :: rs =>
    match idxminAbs t rs with
    | none => some r
    | some b => if timeDiff t r ≤ timeDiff t b then some r else some b

/-! ## Packaging (`_package`, lines 220–413) -/

/-- A Python exception escaping `_package` / `_import_video_files`. -/
inductive PyError
  | indexError
  | valueError
deriving DecidableEq, Repr

/-- One entry of the `data_mapping` dictionary: the key (the discovered
file's path, here relative to `data_dir`), the relative output path, and the
matched telemetry record when one was found.  In the source a match carries
both `[metadata]` (built by the external iFDO collaborator from the matched
row) and `first_row.to_dict()`; both are present exactly when a record was
matched, so the `Option TelemetryRecord` component models them jointly. -/
abbrev ManifestEntry := String × String × Option TelemetryRecord

/-- A file yielded by `data_dir.rglob("*")`: path relative to `data_dir`,
`Path.stem`, `Path.suffix`, and whether it is a regular file. -/
structure FSFile where
  relPath : String
  stem : String
  suffix : String
  isFile : Bool
deriving DecidableEq, Repr

/-- Glob `*TAG*.CSV` (line 231): the name contains `TAG` and ends with
`.CSV`.  Note there is NO deployment-identifier condition here. -/
def isTagCsv (n : String) : Bool :=
  containsSub n "TAG" && strEndsWith n ".CSV"

/-- Model of `tag_files = list((data_dir / "data").glob("*TAG*.CSV"))` followed by
`tag_files[0]` — the first `*TAG*.CSV` entry of the data directory listing,
or `none` when there is none. -/
def selectTagFile (listing : List String) : Option String :=
  (listing.filter isTagCsv).head?

/-- Line 264: `file_path.stem.split("_")[5]` then
`pd.to_datetime(..., format="%Y%m%dT%H%M%SZ")` (line 265).  Fewer than six
underscore-delimited segments raise `IndexError`; a sixth segment that is not
a valid compact timestamp raises `ValueError`.  Neither is caught anywhere in
`_package`. -/
def extractAssetTime (stem : String) : Except PyError Int :=
  match (splitUnderscore stem).get? 5 with
  | none => .error .indexError
  | some tok =>
    match parseCompact tok with
    | none => .error .valueError
    | some t => .ok t

/-- The condition of lines 257–262: a regular file with suffix `.jpg`/`.mp4`
(case-insensitive) whose name carries neither `_THUMB` nor `_OVERVIEW`. -/
def isVisualFile (f : FSFile) : Bool :=
  f.isFile && (lowerStr f.suffix == ".jpg" || lowerStr f.suffix == ".mp4")
    && !(containsSub (f.stem ++ f.suffix) "_THUMB")
    && !(containsSub (f.stem ++ f.suffix) "_OVERVIEW")

/-- Line 254: `deployment_id / file_path.relative_to(data_dir)`. -/
def outPath (depId : String) (f : FSFile) : String :=
  depId ++ "/" ++ f.relPath

/-- One iteration of the `for file_path in file_paths` loop of `_package`
(lines 250–410): produces `some entry` when the file receives a mapping,
`none` when it receives none (directories, and visual files with no match —
note the `elif` at line 409 belongs to the OUTER `if`, so an unmatched visual
file falls through both branches), and an error when an uncaught exception is
raised. -/
def processFile (depId : String) (table : List TelemetryRecord) (f : FSFile) :
    Except PyError (Option ManifestEntry) :=
  if isVisualFile f then
    match extractAssetTime f.stem with
    | .error e => .error e
    | .ok t =>
      if lowerStr f.suffix == ".jpg" then
        match matchJpg t table with
        | some r => .ok (some (f.relPath, outPath depId f, some r))
        | none => .ok none
      else
        match idxminAbs t table with
        | none => .error .valueError
        | some r => .ok (some (f.relPath, outPath depId f, some r))
  else if f.isFile then
    .ok (some (f.relPath, outPath depId f, none))
  else
    .ok none

/-- The whole `for` loop of `_package`, building `data_mapping` in iteration
order; an uncaught exception in any iteration aborts the loop (and thus the
whole packaging pass). -/
def packageLoop (depId : String) (table : List TelemetryRecord) :
    List FSFile → Except PyError (List ManifestEntry)
  | [] => .ok []
  | f :: fs =>
    match processFile depId table f with
    | .error e => .error e
    | .ok none => packageLoop depId table fs
    | .ok (some entry) =>
      match packageLoop depId table fs with
      | .error e => .error e
      | .ok rest => .ok (entry :: rest)

/-- Model of `_package` (lines 220–413).  `depId` is `str(data_dir).split("/")[-2]`;
`dataListing` is the listing of `data_dir / "data"`; `readCsv` models
`pd.read_csv` on a named file (its `Except` failure covering
`EmptyDataError` / `ParserError` / `OSError`, all caught at line 243);
`files` is the `rglob` enumeration of `data_dir`.  Absence of a TAG file, a
CSV read failure, and a timestamp-column parse failure each return the empty
mapping after a logged warning (lines 232–234 and 243–245). -/
def package (depId : String) (dataListing : List String)
    (readCsv : String → Except String (List RawRecord)) (files : List FSFile) :
    Except PyError (List ManifestEntry) :=
  match selectTagFile dataListing with
  | none => .ok []
  | some nm =>
    match readCsv nm with
    | .error _ => .ok []
    | .ok raw =>
      match loadTable raw with
      | none => .ok []
      | some table => packageLoop depId table files

/-! ## Import (`_import`, lines 103–174) -/

/-- Filesystem state: the set of regular-file paths and of directory paths,
as lists.  `_create_hard_link` observes only existence of the destination
path (`FileExistsError`), so this is all the state the import mutates. -/
structure FS where
  files : List String
  dirs : List String
deriving DecidableEq, Repr

/-- Log output of the import phase: the `logger.debug` on a created link and
the `logger.warning` on an existing destination (lines 140–142). -/
inductive LogEvent
  | createdLink (src dst : String)
  | alreadyExists (dst : String)
deriving DecidableEq, Repr

/-- Model of `_create_hard_link` (lines 135–144): under `dry_run` NOTHING happens —
the `try` block, including both logger calls, sits inside
`if not self.dry_run`.  Otherwise `os.link` either creates the link, or
raises `FileExistsError` (caught, warning).  The generic-`OSError` branch is
not modelled: in this filesystem model a link to a fresh destination always
succeeds. -/
def createHardLink (dryRun : Bool) (fs : FS) (src dst : String) :
    FS × List LogEvent :=
  if dryRun then (fs, [])
  else if fs.files.contains dst then (fs, [.alreadyExists dst])
  else ({ fs with files := dst :: fs.files }, [.createdLink src dst])

/-- Model of `dest_dir.mkdir(parents=True, exist_ok=True)` (line 168): executed
UNCONDITIONALLY, i.e. also under `dry_run`. -/
def mkdirP (fs : FS) (d : String) : FS :=
  if fs.dirs.contains d then fs else { fs with dirs := d :: fs.dirs }

/-- Sequential `_create_hard_link` calls over `(source, destination)`
pairs. -/
def linkAll (dryRun : Bool) (fs : FS) :
    List (String × String) → FS × List LogEvent
  | [] => (fs, [])
  | p :: rest =>
    let r1 := createHardLink dryRun fs p.1 p.2
    let r2 := linkAll dryRun r1.1 rest
    (r2.1, r1.2 ++ r2.2)

/-- Model of `_import_data_files` (lines 103–111): glob `*.CSV`, keep names ending in
`{deployment_id}.CSV`, link each into the destination directory. -/
def dataLinkPairs (srcDir destDir depId : String) (listing : List String) :
    List (String × String) :=
  ((listing.filter fun n => strEndsWith n ".CSV").filter
      fun n => strEndsWith n (depId ++ ".CSV")).map
    fun n => (srcDir ++ "/" ++ n, destDir ++ "/" ++ n)

/-- Model of `_import_still_images` (lines 113–121): glob `*.JPG`, link each. -/
def stillLinkPairs (srcDir destDir : String) (listing : List String) :
    List (String × String) :=
  (listing.filter fun n => strEndsWith n ".JPG").map
    fun n => (srcDir ++ "/" ++ n, destDir ++ "/" ++ n)

/-- An entry of `source_dir.iterdir()`. -/
structure DirEntry where
  name : String
  isFile : Bool
deriving DecidableEq, Repr

/-- Model of `_import_video_files` (lines 123–133): for every regular file, unpack
`name.rsplit(".", 1)` — raising an uncaught `ValueError` when the name has no
dot, which aborts the remaining iterations — then link the file when the base
name ends with `Z` but not with `_Z`.  The error component records whether
the loop was aborted by that exception. -/
def importVideoFiles (dryRun : Bool) (srcDir destDir : String) (fs : FS) :
    List DirEntry → FS × List LogEvent × Option PyError
  | [] => (fs, [], none)
  | e :: rest =>
    if e.isFile then
      match rsplitDot e.name with
      | none => (fs, [], some .valueError)
      | some bp =>
        if strEndsWith bp.1 "Z" && !(strEndsWith bp.1 "_Z") then
          let r1 := createHardLink dryRun fs (srcDir ++ "/" ++ e.name)
            (destDir ++ "/" ++ e.name)
          let r2 := importVideoFiles dryRun srcDir destDir r1.1 rest
          (r2.1, r1.2 ++ r2.2.1, r2.2.2)
        else importVideoFiles dryRun srcDir destDir fs rest
    else importVideoFiles dryRun srcDir destDir fs rest

/-- The source-side inputs of `_import`: the three source directory paths and
their listings.  A missing source directory behaves exactly like an empty
listing (the functions only iterate over it), so listings model both. -/
structure ImportSrc where
  srcData : String
  srcStills : String
  srcVideo : String
  dataListing : List String
  stillsListing : List String
  videoListing : List DirEntry
deriving Repr

/-- Model of `_import` (lines 146–174): create the three destination directories
(unconditionally), then import data CSVs, still images, and video files in
that order.  The error component is the uncaught `ValueError` of the video
loop, if any (raised after the data and stills phases completed). -/
def importPhase (dryRun : Bool) (depId : String)
    (destData destStills destVideo : String) (src : ImportSrc) (fs0 : FS) :
    FS × List LogEvent × Option PyError :=
  let fs1 := mkdirP (mkdirP (mkdirP fs0 destData) destStills) destVideo
  let r2 := linkAll dryRun fs1 (dataLinkPairs src.srcData destData depId src.dataListing)
  let r3 := linkAll dryRun r2.1 (stillLinkPairs src.srcStills destStills src.stillsListing)
  let r4 := importVideoFiles dryRun src.srcVideo destVideo r3.1 src.videoListing
  (r4.1, r2.2 ++ r3.2 ++ r4.2.1, r4.2.2)

/-! ## Shared fixtures and helper lemmas -/

/-- Telemetry records at seconds 10, 20 and 30 (epoch microseconds). -/
def exampleTable102030 : List TelemetryRecord :=
  [⟨10000000, 0⟩, ⟨20000000, 1⟩, ⟨30000000, 2⟩]

/-- A still-image destination file with the six-segment naming convention,
timestamp 1970-01-01T00:00:10Z (epoch second 10). -/
def goodStill : FSFile :=
  ⟨"stills/A_B_C_D_E_19700101T000010Z.JPG", "A_B_C_D_E_19700101T000010Z", ".JPG", true⟩

/-- A still-image destination file whose stem does not follow the
six-segment naming convention. -/
def badStill : FSFile :=
  ⟨"stills/photo1.JPG", "photo1", ".JPG", true⟩

/-- The function `idxminAbs` returns the first record of the table attaining the minimum
absolute time difference: it is a member, every element strictly before it
has strictly larger difference, and no element has smaller difference. -/
theorem idxminAbs_first_min (t : Int) :
    ∀ (table : List TelemetryRecord), table ≠ [] →
      ∃ r pre post, idxminAbs t table = some r ∧ table = pre ++ r :: post ∧
        (∀ s ∈ pre, timeDiff t r < timeDiff t s) ∧
        (∀ s ∈ table, timeDiff t r ≤ timeDiff t s)
  | [], h => absurd rfl h
  | [r], _ => ⟨r, [], [], rfl, rfl, by simp, by simp⟩
  | r :: s :: rs, _ => by
    obtain ⟨b, pre, post, hb, heq, hpre, hmin⟩ :=
      idxminAbs_first_min t (s :: rs) (by simp)
    by_cases hle : timeDiff t r ≤ timeDiff t b
    · refine ⟨r, [], s :: rs, ?_, rfl, by simp, ?_⟩
      · rw [idxminAbs, hb]
        simp [hle]
      · intro x hx
        rcases List.mem_cons.mp hx with hx | hx
        · exact hx ▸ le_refl _
        · exact le_trans hle (hmin x hx)
    · push_neg at hle
      refine ⟨b, r :: pre, post, ?_, ?_, ?_, ?_⟩
      · rw [idxminAbs, hb]
        simp [not_le.mpr hle]
      · rw [List.cons_append, heq]
      · intro x hx
        rcases List.mem_cons.mp hx with hx | hx
        · exact hx ▸ hle
        · exact hpre x hx
      · intro x hx
        rcases List.mem_cons.mp hx with hx | hx
        · exact hx ▸ le_of_lt hle
        · exact hmin x hx

/-- First-match characterization of `(l.filter p).head?`. -/
theorem head_filter_some {α : Type} (p : α → Bool) :
    ∀ (l : List α) (r : α), (l.filter p).head? = some r →
      p r = true ∧ ∃ pre post, l = pre ++ r :: post ∧ ∀ s ∈ pre, p s = false
  | [], r, h => by simp at h
  | a :: as, r, h => by
    by_cases hpa : p a
    · rw [List.filter_cons_of_pos hpa] at h
      have har : a = r := by simpa using h
      subst har
      exact ⟨hpa, [], as, rfl, by simp⟩
    · rw [List.filter_cons_of_neg (by simpa using hpa)] at h
      obtain ⟨hr, pre, post, heq, hpre⟩ := head_filter_some p as r h
      refine ⟨hr, a :: pre, post, by rw [List.cons_append, heq], ?_⟩
      intro x hx
      rcases List.mem_cons.mp hx with hx | hx
      · exact hx ▸ (by simpa using hpa)
      · exact hpre x hx

/-! ## Claim theorems -/

/-- C1: for every video (.mp4) asset with a parseable filename timestamp and
every non-empty telemetry table, the matcher selects the record minimizing
the absolute difference between the record's floored timestamp and the asset
timestamp, ties broken by the first-occurring minimum in table order; a video
asset always receives some record on a non-empty table (at the `_package`
level it receives a manifest entry carrying that record); and on a table with
records at seconds 10, 20 and 30 with asset timestamp second 24, the record
at 20 is returned. -/
theorem video_nearest_first_min :
    (∀ (table : List TelemetryRecord) (t : Int), table ≠ [] →
      ∃ r pre post, idxminAbs t table = some r ∧ table = pre ++ r :: post ∧
        (∀ s ∈ pre, timeDiff t r < timeDiff t s) ∧
        (∀ s ∈ table, timeDiff t r ≤ timeDiff t s)) ∧
    (∀ (depId : String) (table : List TelemetryRecord) (f : FSFile) (t : Int),
      isVisualFile f = true → lowerStr f.suffix = ".mp4" →
      extractAssetTime f.stem = .ok t → table ≠ [] →
      ∃ r, idxminAbs t table = some r ∧
        processFile depId table f = .ok (some (f.relPath, outPath depId f, some r))) ∧
    idxminAbs 24000000 exampleTable102030 = some ⟨20000000, 1⟩ := by
  refine ⟨fun table t h => idxminAbs_first_min t table h, ?_, by decide⟩
  intro depId table f t hvis hmp4 hts hne
  obtain ⟨r, _, _, hr, -, -, -⟩ := idxminAbs_first_min t table hne
  refine ⟨r, hr, ?_⟩
  simp only [processFile, hvis, hts, hmp4, hr]
  simp

/-- Witness for C1 at a concrete input. -/
theorem video_nearest_first_min_witness :
    ∃ r pre post, idxminAbs 0 [(⟨5000000, 3⟩ : TelemetryRecord)] = some r ∧
      [(⟨5000000, 3⟩ : TelemetryRecord)] = pre ++ r :: post ∧
      (∀ s ∈ pre, timeDiff 0 r < timeDiff 0 s) ∧
      (∀ s ∈ [(⟨5000000, 3⟩ : TelemetryRecord)], timeDiff 0 r ≤ timeDiff 0 s) :=
  video_nearest_first_min.1 [⟨5000000, 3⟩] 0 (by decide)

/-- C2: for every still-image (.jpg) asset, the matcher only ever returns a
record whose floored timestamp equals the asset timestamp exactly, taking the
first such record in table order; in particular, on a table with records only
at seconds 23 and 25 and asset timestamp second 24, no record is returned
even though textually closer non-equal records exist at ±1 second. -/
theorem still_exact_match :
    (∀ (table : List TelemetryRecord) (t : Int) (r : TelemetryRecord),
      matchJpg t table = some r →
      r.finalTime = t ∧
        ∃ pre post, table = pre ++ r :: post ∧ ∀ s ∈ pre, s.finalTime ≠ t) ∧
    matchJpg 24000000 [⟨23000000, 0⟩, ⟨25000000, 1⟩] = none := by
  constructor
  · intro table t r h
    obtain ⟨hp, pre, post, heq, hpre⟩ := head_filter_some _ table r h
    refine ⟨eq_of_beq hp, pre, post, heq, fun s hs => ?_⟩
    simpa using hpre s hs
  · rfl

/-- Witness for C2 at a concrete input. -/
theorem still_exact_match_witness :
    (⟨10000000, 5⟩ : TelemetryRecord).finalTime = 10000000 ∧
      ∃ pre post, [(⟨10000000, 5⟩ : TelemetryRecord)] = pre ++ ⟨10000000, 5⟩ :: post ∧
        ∀ s ∈ pre, s.finalTime ≠ 10000000 :=
  still_exact_match.1 [⟨10000000, 5⟩] 10000000 ⟨10000000, 5⟩ rfl

/-- C7: every telemetry timestamp made available to the matcher is the floor
to the whole second of the source timestamp; in particular 12:00:00.900000
(epoch microsecond 43200900000) normalizes to 12:00:00 (43200000000). -/
theorem telemetry_floor_to_second :
    (∀ (raw : List RawRecord) (table : List TelemetryRecord),
      loadTable raw = some table →
      List.Forall₂ (fun (rr : RawRecord) (r : TelemetryRecord) =>
        ∃ tt, rr.finalTimeRaw = some tt ∧ r.finalTime = floorSec tt ∧
          r.payload = rr.payload) raw table) ∧
    floorSec 43200900000 = 43200000000 := by
  constructor
  · intro raw
    induction raw with
    | nil =>
      intro table h
      rw [loadTable] at h
      injection h with h
      subst h
      exact List.Forall₂.nil
    | cons rr rest ih =>
      intro table h
      rw [loadTable] at h
      cases hft : rr.finalTimeRaw with
      | none => rw [hft] at h; simp at h
      | some tt =>
        rw [hft] at h
        cases hlt : loadTable rest with
        | none => rw [hlt] at h; simp at h
        | some tbl =>
          rw [hlt] at h
          simp only [Option.map_some'] at h
          injection h with h
          subst h
          exact List.Forall₂.cons ⟨tt, hft, rfl, rfl⟩ (ih tbl hlt)
  · decide

/-- Witness for C7 at a concrete input. -/
theorem telemetry_floor_to_second_witness :
    List.Forall₂ (fun (rr : RawRecord) (r : TelemetryRecord) =>
      ∃ tt, rr.finalTimeRaw = some tt ∧ r.finalTime = floorSec tt ∧
        r.payload = rr.payload)
      [⟨some 43200900000, 7⟩] [⟨43200000000, 7⟩] :=
  telemetry_floor_to_second.1 [⟨some 43200900000, 7⟩] [⟨43200000000, 7⟩] rfl

/-- C4: packaging returns the empty manifest (never an error) when no TAG
CSV file exists in the data directory, when the first TAG file cannot be read
as tabular data, and when its timestamp column cannot be parsed under the
fixed format. -/
theorem package_empty_on_missing_or_malformed :
    (∀ (depId : String) (listing : List String)
        (readCsv : String → Except String (List RawRecord)) (files : List FSFile),
      selectTagFile listing = none →
      package depId listing readCsv files = .ok []) ∧
    (∀ (depId : String) (listing : List String)
        (readCsv : String → Except String (List RawRecord)) (files : List FSFile)
        (nm msg : String),
      selectTagFile listing = some nm → readCsv nm = .error msg →
      package depId listing readCsv files = .ok []) ∧
    (∀ (depId : String) (listing : List String)
        (readCsv : String → Except String (List RawRecord)) (files : List FSFile)
        (nm : String) (raw : List RawRecord),
      selectTagFile listing = some nm → readCsv nm = .ok raw →
      loadTable raw = none →
      package depId listing readCsv files = .ok []) := by
  refine ⟨?_, ?_, ?_⟩
  · intro depId listing readCsv files h
    simp [package, h]
  · intro depId listing readCsv files nm msg h1 h2
    simp [package, h1, h2]
  · intro depId listing readCsv files nm raw h1 h2 h3
    simp [package, h1, h2, h3]

/-- Witness for C4 at concrete inputs exercising all three failure modes. -/
theorem package_empty_on_missing_or_malformed_witness :
    package "D" [] (fun _ => .error "io") [goodStill] = .ok [] ∧
    package "D" ["X_TAG_Y.CSV"] (fun _ => .error "io") [goodStill] = .ok [] ∧
    package "D" ["X_TAG_Y.CSV"] (fun _ => .ok [⟨none, 0⟩]) [goodStill] = .ok [] :=
  ⟨package_empty_on_missing_or_malformed.1 "D" [] (fun _ => .error "io")
      [goodStill] rfl,
    package_empty_on_missing_or_malformed.2.1 "D" ["X_TAG_Y.CSV"]
      (fun _ => .error "io") [goodStill] "X_TAG_Y.CSV" "io" rfl rfl,
    package_empty_on_missing_or_malformed.2.2 "D" ["X_TAG_Y.CSV"]
      (fun _ => .ok [⟨none, 0⟩]) [goodStill] "X_TAG_Y.CSV" [⟨none, 0⟩] rfl rfl rfl⟩

/-- C3 counterexample: a visual-asset file whose stem does not follow the
six-segment convention does NOT merely lose its own correlation — the
uncaught `IndexError` aborts the whole packaging pass, so the sibling file is
not processed and no manifest is produced. -/
theorem package_bad_stem_counterexample :
    package "D" ["X_TAG_Y.CSV"] (fun _ => .ok [⟨some 10500000, 0⟩])
      [badStill, goodStill] = .error .indexError := rfl

/-- C3 amended: a visual-asset file whose stem does not contain six
underscore-delimited segments with a valid compact timestamp as the sixth
raises an uncaught `IndexError`/`ValueError` that aborts the entire packaging
pass: no per-file logging or skipping occurs and sibling files are not
guaranteed to be processed. -/
theorem package_bad_stem_aborts :
    ∀ (depId : String) (table : List TelemetryRecord) (files : List FSFile)
      (f : FSFile),
      f ∈ files → isVisualFile f = true →
      (∃ e, extractAssetTime f.stem = Except.error e) →
      ∃ e, packageLoop depId table files = Except.error e := by
  intro depId table files f hmem hvis herr
  induction files with
  | nil => simp at hmem
  | cons g gs ih =>
    rcases List.mem_cons.mp hmem with rfl | hmem2
    · obtain ⟨e, he⟩ := herr
      exact ⟨e, by simp [packageLoop, processFile, hvis, he]⟩
    · obtain ⟨e, he⟩ := ih hmem2
      cases hpf : processFile depId table g with
      | error e2 => exact ⟨e2, by simp [packageLoop, hpf]⟩
      | ok o =>
        cases o with
        | none =>
          refine ⟨e, ?_⟩
          rw [packageLoop, hpf]
          exact he
        | some entry =>
          refine ⟨e, ?_⟩
          rw [packageLoop, hpf, he]

/-- Witness for the amended C3 at a concrete input. -/
theorem package_bad_stem_aborts_witness :
    ∃ e, packageLoop "D" exampleTable102030 [badStill] = Except.error e :=
  package_bad_stem_aborts "D" exampleTable102030 [badStill] badStill
    (by simp) (by decide) ⟨.indexError, rfl⟩

/-- C5 counterexample: a still image whose timestamp (second 10) matches no
telemetry record (the table holds only second 11) receives NO entry in the
returned manifest — the mapping comes back empty, contradicting the claim
that the asset still appears as an entry. -/
theorem still_unmatched_dropped_counterexample :
    packageLoop "D" [⟨11000000, 7⟩] [goodStill] = .ok [] ∧
    extractAssetTime goodStill.stem = .ok 10000000 ∧
    matchJpg 10000000 [⟨11000000, 7⟩] = none ∧
    isVisualFile goodStill = true :=
  ⟨rfl, rfl, rfl, rfl⟩

/-- C5 amended: a still-image asset whose timestamp matches no telemetry
record is excluded from correlation AND receives no entry in the returned
manifest at all (the `elif` of line 409 belongs to the outer `if`, so the
unmatched visual file falls through both branches). -/
theorem still_unmatched_no_manifest_entry :
    ∀ (depId : String) (table : List TelemetryRecord) (f : FSFile) (t : Int),
      isVisualFile f = true → lowerStr f.suffix = ".jpg" →
      extractAssetTime f.stem = .ok t → matchJpg t table = none →
      processFile depId table f = .ok none ∧
      ∀ fs, packageLoop depId table (f :: fs) = packageLoop depId table fs := by
  intro depId table f t hvis hjpg hts hm
  have hpf : processFile depId table f = .ok none := by
    simp [processFile, hvis, hts, hjpg, hm]
  refine ⟨hpf, fun fs => ?_⟩
  rw [packageLoop, hpf]

/-- Witness for the amended C5 at a concrete input. -/
theorem still_unmatched_no_manifest_entry_witness :
    processFile "D" [⟨11000000, 7⟩] goodStill = .ok none ∧
    ∀ fs, packageLoop "D" [⟨11000000, 7⟩] (goodStill :: fs)
      = packageLoop "D" [⟨11000000, 7⟩] fs :=
  still_unmatched_no_manifest_entry "D" [⟨11000000, 7⟩] goodStill 10000000
    (by decide) (by decide) rfl rfl

/-- C8 counterexample: the TAG-file selection has no deployment-identifier
condition — a file whose name contains `TAG` but not the deployment
identifier `DEP1` is still selected as the telemetry log. -/
theorem tag_select_ignores_deployment_counterexample :
    selectTagFile ["MRITC_TAG_DEP2.CSV"] = some "MRITC_TAG_DEP2.CSV" ∧
    containsSub "MRITC_TAG_DEP2.CSV" "DEP1" = false :=
  ⟨rfl, rfl⟩

/-- C8 amended: the loader selects exactly the first file of the data
directory listing whose name contains the `TAG` substring and ends with
`.CSV`, with no deployment-identifier condition; it selects nothing iff no
such file exists. -/
theorem tag_select_first_tag_csv :
    (∀ (listing : List String) (nm : String),
      selectTagFile listing = some nm →
      isTagCsv nm = true ∧
        ∃ pre post, listing = pre ++ nm :: post ∧ ∀ m ∈ pre, isTagCsv m = false) ∧
    (∀ listing : List String,
      selectTagFile listing = none ↔ ∀ nm ∈ listing, isTagCsv nm = false) := by
  constructor
  · intro listing nm h
    exact head_filter_some _ listing nm h
  · intro listing
    rw [selectTagFile, List.head?_eq_none_iff, List.filter_eq_nil_iff]
    simp

/-- Witness for the amended C8 at a concrete input. -/
theorem tag_select_first_tag_csv_witness :
    isTagCsv "B_TAG_X.CSV" = true ∧
      ∃ pre post, ["A.TXT", "B_TAG_X.CSV"] = pre ++ "B_TAG_X.CSV" :: post ∧
        ∀ m ∈ pre, isTagCsv m = false :=
  tag_select_first_tag_csv.1 ["A.TXT", "B_TAG_X.CSV"] "B_TAG_X.CSV" rfl

/-! ## Lemmas about the import phase -/

/-- The error outcome of `_import_video_files` depends only on the directory
listing: the first regular file whose name has no dot (if any) raises
`ValueError`. -/
def videoErr : List DirEntry → Option PyError
  | [] => none
  | e :: rest =>
    if e.isFile then
      match rsplitDot e.name with
      | none => some .valueError
      | some _ => videoErr rest
    else videoErr rest

/-- What a repeated link attempt turns a first-run log event into: the
destination now exists, so every attempt warns `alreadyExists`. -/
def logAsRerun : LogEvent → LogEvent
  | .createdLink _ dst => .alreadyExists dst
  | .alreadyExists dst => .alreadyExists dst

theorem mkdirP_files (fs : FS) (d : String) : (mkdirP fs d).files = fs.files := by
  rw [mkdirP]; split <;> rfl

theorem mem_mkdirP_dirs (fs : FS) (d : String) : d ∈ (mkdirP fs d).dirs := by
  rw [mkdirP]
  split
  · next h => exact List.elem_iff.mp h
  · exact List.mem_cons_self _ _

theorem mkdirP_dirs_mono (fs : FS) (d d' : String) (h : d ∈ fs.dirs) :
    d ∈ (mkdirP fs d').dirs := by
  rw [mkdirP]
  split
  · exact h
  · exact List.mem_cons_of_mem _ h

theorem mkdirP_of_mem (fs : FS) (d : String) (h : d ∈ fs.dirs) :
    mkdirP fs d = fs := by
  rw [mkdirP, if_pos (List.elem_iff.mpr h)]

theorem createHardLink_dry (fs : FS) (src dst : String) :
    createHardLink true fs src dst = (fs, []) := rfl

theorem linkAll_dry (ps : List (String × String)) (fs : FS) :
    linkAll true fs ps = (fs, []) := by
  induction ps generalizing fs with
  | nil => rfl
  | cons p rest ih => simp [linkAll, createHardLink_dry, ih]

theorem importVideo_err (srcDir destDir : String) :
    ∀ (l : List DirEntry) (dryRun : Bool) (fs : FS),
      (importVideoFiles dryRun srcDir destDir fs l).2.2 = videoErr l
  | [], _, _ => rfl
  | e :: rest, dryRun, fs => by
    rw [importVideoFiles, videoErr]
    split
    · cases hrs : rsplitDot e.name with
      | none => rfl
      | some bp =>
        dsimp only
        split
        · exact importVideo_err srcDir destDir rest dryRun _
        · exact importVideo_err srcDir destDir rest dryRun fs
    · exact importVideo_err srcDir destDir rest dryRun fs

theorem importVideo_dry (srcDir destDir : String) :
    ∀ (l : List DirEntry) (fs : FS),
      importVideoFiles true srcDir destDir fs l = (fs, [], videoErr l)
  | [], _ => rfl
  | e :: rest, fs => by
    rw [importVideoFiles, videoErr]
    split
    · cases hrs : rsplitDot e.name with
      | none => rfl
      | some bp =>
        dsimp only
        split
        · rw [createHardLink_dry, importVideo_dry srcDir destDir rest fs]
          rfl
        · exact importVideo_dry srcDir destDir rest fs
    · exact importVideo_dry srcDir destDir rest fs

/-- Under `dry_run`, `_import` still creates the three destination
directories, attempts no link, emits no log output, and would hit exactly
the same uncaught video filename error. -/
theorem importPhase_dry (depId dd ds dv : String) (src : ImportSrc) (fs0 : FS) :
    importPhase true depId dd ds dv src fs0
      = (mkdirP (mkdirP (mkdirP fs0 dd) ds) dv, [], videoErr src.videoListing) := by
  simp [importPhase, linkAll_dry, importVideo_dry]

/-- No dot in the name means `rsplitLastDot` finds nothing. -/
theorem rsplitLastDot_of_noDot :
    ∀ (cs : List Char), (∀ c ∈ cs, c ≠ '.') → rsplitLastDot cs = none
  | [], _ => rfl
  | c :: cs, h => by
    rw [rsplitLastDot, rsplitLastDot_of_noDot cs fun x hx => h x (List.mem_cons_of_mem _ hx)]
    simp [h c (List.mem_cons_self _ _)]

theorem rsplitDot_of_noDot (s : String) (h : ∀ c ∈ s.toList, c ≠ '.') :
    rsplitDot s = none := by
  rw [rsplitDot, rsplitLastDot_of_noDot s.toList h]
  rfl

/-- A regular file without a dot in its name forces the video-import error. -/
theorem videoErr_of_noDot :
    ∀ (entries : List DirEntry) (e : DirEntry), e ∈ entries →
      e.isFile = true → rsplitDot e.name = none →
      videoErr entries = some PyError.valueError
  | [], e, h, _, _ => absurd h (List.not_mem_nil e)
  | g :: gs, e, h, hfile, hdot => by
    rcases List.mem_cons.mp h with rfl | h2
    · rw [videoErr, if_pos hfile, hdot]
    · rw [videoErr]
      split
      · cases hrs : rsplitDot g.name with
        | none => rfl
        | some bp => exact videoErr_of_noDot gs e h2 hfile hdot
      · exact videoErr_of_noDot gs e h2 hfile hdot

/-! ## Import claim theorems -/

/-- Source fixture with one still image and nothing else. -/
def srcStillsOnly : ImportSrc :=
  ⟨"s/data", "s/stills", "s/video", [], ["A.JPG"], []⟩

/-- C6 counterexample: with `dry_run` the import still creates the three
destination directories (a filesystem mutation), and its log output (empty)
differs from the non-dry run's log (which records the created link) — both
on the same concrete input. -/
theorem dry_run_counterexample :
    (importPhase true "DEP1" "d/data" "d/stills" "d/video" srcStillsOnly
        ⟨[], []⟩).1.dirs ≠ ([] : List String) ∧
    (importPhase true "DEP1" "d/data" "d/stills" "d/video" srcStillsOnly
        ⟨[], []⟩).2.1
      ≠ (importPhase false "DEP1" "d/data" "d/stills" "d/video" srcStillsOnly
        ⟨[], []⟩).2.1 :=
  ⟨by decide, by decide⟩

/-- C6 amended: under `dry_run` the import creates no links, leaves every
existing file untouched and emits NO log output (all logging sits inside the
`if not self.dry_run` guard), but it still creates the three destination
directories; the only uncaught error it can raise (the video-name
`ValueError`) is decided identically to a non-dry run. -/
theorem dry_run_behavior :
    ∀ (depId dd ds dv : String) (src : ImportSrc) (fs0 : FS),
      (importPhase true depId dd ds dv src fs0).1.files = fs0.files ∧
      (importPhase true depId dd ds dv src fs0).1.dirs
        = (mkdirP (mkdirP (mkdirP fs0 dd) ds) dv).dirs ∧
      (importPhase true depId dd ds dv src fs0).2.1 = [] ∧
      (importPhase true depId dd ds dv src fs0).2.2
        = (importPhase false depId dd ds dv src fs0).2.2 := by
  intro depId dd ds dv src fs0
  rw [importPhase_dry]
  refine ⟨by simp [mkdirP_files], rfl, rfl, ?_⟩
  show videoErr src.videoListing = _
  rw [show (importPhase false depId dd ds dv src fs0).2.2
      = (importVideoFiles false src.srcVideo dv
          (linkAll false
            (linkAll false (mkdirP (mkdirP (mkdirP fs0 dd) ds) dv)
              (dataLinkPairs src.srcData dd depId src.dataListing)).1
            (stillLinkPairs src.srcStills ds src.stillsListing)).1
          src.videoListing).2.2 from rfl]
  rw [importVideo_err]

/-- C10: every regular file in the video source directory whose name
contains no dot makes `_import_video_files` raise an uncaught `ValueError`
(from unpacking `rsplit(".", 1)`), aborting the video import phase; on the
concrete listing `["README", "B_SVY_C_D_E_19700101T000010Z.MP4"]` the valid
sibling video is never linked and nothing is logged. -/
theorem video_import_no_dot_aborts :
    (∀ (dryRun : Bool) (srcDir destDir : String) (fs : FS)
        (entries : List DirEntry) (e : DirEntry),
      e ∈ entries → e.isFile = true → (∀ c ∈ e.name.toList, c ≠ '.') →
      (importVideoFiles dryRun srcDir destDir fs entries).2.2
        = some PyError.valueError) ∧
    importVideoFiles false "src/video" "dest/video" ⟨[], []⟩
        [⟨"README", true⟩, ⟨"B_SVY_C_D_E_19700101T000010Z.MP4", true⟩]
      = (⟨[], []⟩, [], some PyError.valueError) := by
  constructor
  · intro dryRun srcDir destDir fs entries e hmem hfile hnd
    rw [importVideo_err,
      videoErr_of_noDot entries e hmem hfile (rsplitDot_of_noDot e.name hnd)]
  · rfl

/-- Witness for C10 at a concrete input. -/
theorem video_import_no_dot_aborts_witness :
    (importVideoFiles false "s" "d" ⟨[], []⟩ [⟨"README", true⟩]).2.2
      = some PyError.valueError :=
  video_import_no_dot_aborts.1 false "s" "d" ⟨[], []⟩ [⟨"README", true⟩]
    ⟨"README", true⟩ (List.mem_singleton.mpr rfl) rfl (by decide)

/-! ## Re-run lemmas for the import phase -/

theorem createHardLink_dirs (dryRun : Bool) (fs : FS) (src dst : String) :
    (createHardLink dryRun fs src dst).1.dirs = fs.dirs := by
  rw [createHardLink]
  split
  · rfl
  · split <;> rfl

theorem createHardLink_files_mono (dryRun : Bool) (fs : FS) (src dst x : String)
    (h : x ∈ fs.files) : x ∈ (createHardLink dryRun fs src dst).1.files := by
  rw [createHardLink]
  split
  · exact h
  · split
    · exact h
    · exact List.mem_cons_of_mem _ h

theorem createHardLink_dest_mem (fs : FS) (src dst : String) :
    dst ∈ (createHardLink false fs src dst).1.files := by
  rw [createHardLink, if_neg (by decide : ¬(false = true))]
  split
  · next h => exact List.elem_iff.mp h
  · exact List.mem_cons_self _ _

theorem createHardLink_exists (fs : FS) (src dst : String) (h : dst ∈ fs.files) :
    createHardLink false fs src dst = (fs, [.alreadyExists dst]) := by
  rw [createHardLink, if_neg (by decide : ¬(false = true)),
    if_pos (List.elem_iff.mpr h)]

theorem createHardLink_log_rerun (fs : FS) (src dst : String) :
    (createHardLink false fs src dst).2.map logAsRerun
      = [LogEvent.alreadyExists dst] := by
  rw [createHardLink, if_neg (by decide : ¬(false = true))]
  split <;> rfl

theorem linkAll_dirs : ∀ (ps : List (String × String)) (dryRun : Bool) (fs : FS),
    (linkAll dryRun fs ps).1.dirs = fs.dirs
  | [], _, _ => rfl
  | p :: rest, dryRun, fs => by
    simp only [linkAll]
    rw [linkAll_dirs rest dryRun _, createHardLink_dirs]

theorem linkAll_files_mono :
    ∀ (ps : List (String × String)) (dryRun : Bool) (fs : FS) (x : String),
      x ∈ fs.files → x ∈ (linkAll dryRun fs ps).1.files
  | [], _, _, _, h => h
  | p :: rest, dryRun, fs, x, h => by
    simp only [linkAll]
    exact linkAll_files_mono rest dryRun _ x
      (createHardLink_files_mono dryRun fs p.1 p.2 x h)

theorem linkAll_dests_mem :
    ∀ (ps : List (String × String)) (fs : FS) (p : String × String),
      p ∈ ps → p.2 ∈ (linkAll false fs ps).1.files
  | [], _, p, h => absurd h (List.not_mem_nil p)
  | q :: rest, fs, p, h => by
    simp only [linkAll]
    rcases List.mem_cons.mp h with rfl | h2
    · exact linkAll_files_mono rest false _ p.2 (createHardLink_dest_mem fs p.1 p.2)
    · exact linkAll_dests_mem rest _ p h2

theorem linkAll_all_exists :
    ∀ (ps : List (String × String)) (fs : FS),
      (∀ p ∈ ps, p.2 ∈ fs.files) →
      linkAll false fs ps = (fs, ps.map fun p => LogEvent.alreadyExists p.2)
  | [], _, _ => rfl
  | q :: rest, fs, h => by
    simp only [linkAll, createHardLink_exists fs q.1 q.2 (h q (List.mem_cons_self _ _))]
    rw [linkAll_all_exists rest fs fun p hp => h p (List.mem_cons_of_mem _ hp)]
    rfl

theorem linkAll_log_rerun :
    ∀ (ps : List (String × String)) (fs : FS),
      (linkAll false fs ps).2.map logAsRerun
        = ps.map fun p => LogEvent.alreadyExists p.2
  | [], _ => rfl
  | q :: rest, fs => by
    simp only [linkAll, List.map_append]
    rw [createHardLink_log_rerun, linkAll_log_rerun rest]
    rfl

theorem video_dirs : ∀ (l : List DirEntry) (dryRun : Bool) (s d : String) (fs : FS),
    (importVideoFiles dryRun s d fs l).1.dirs = fs.dirs
  | [], _, _, _, _ => rfl
  | e :: rest, dryRun, s, d, fs => by
    rw [importVideoFiles]
    split
    · cases hrs : rsplitDot e.name with
      | none => rfl
      | some bp =>
        dsimp only
        split
        · rw [video_dirs rest dryRun s d _, createHardLink_dirs]
        · exact video_dirs rest dryRun s d fs
    · exact video_dirs rest dryRun s d fs

theorem video_files_mono :
    ∀ (l : List DirEntry) (dryRun : Bool) (s d : String) (fs : FS) (x : String),
      x ∈ fs.files → x ∈ (importVideoFiles dryRun s d fs l).1.files
  | [], _, _, _, _, _, h => h
  | e :: rest, dryRun, s, d, fs, x, h => by
    rw [importVideoFiles]
    split
    · cases hrs : rsplitDot e.name with
      | none => exact h
      | some bp =>
        dsimp only
        split
        · exact video_files_mono rest dryRun s d _ x
            (createHardLink_files_mono dryRun fs _ _ x h)
        · exact video_files_mono rest dryRun s d fs x h
    · exact video_files_mono rest dryRun s d fs x h

theorem video_rerun : ∀ (l : List DirEntry) (s d : String) (fs : FS),
    importVideoFiles false s d (importVideoFiles false s d fs l).1 l
      = ((importVideoFiles false s d fs l).1,
         (importVideoFiles false s d fs l).2.1.map logAsRerun,
         (importVideoFiles false s d fs l).2.2)
  | [], _, _, _ => rfl
  | e :: rest, s, d, fs => by
    cases hf : e.isFile with
    | false =>
      have hstep : ∀ fs', importVideoFiles false s d fs' (e :: rest)
          = importVideoFiles false s d fs' rest := by
        intro fs'
        rw [importVideoFiles, if_neg (by simp [hf])]
      simp only [hstep]
      exact video_rerun rest s d fs
    | true =>
      cases hrs : rsplitDot e.name with
      | none =>
        have hstep : ∀ fs', importVideoFiles false s d fs' (e :: rest)
            = (fs', [], some .valueError) := by
          intro fs'
          rw [importVideoFiles, if_pos hf, hrs]
        simp only [hstep]
        rfl
      | some bp =>
        cases hz : strEndsWith bp.1 "Z" && !(strEndsWith bp.1 "_Z") with
        | false =>
          have hstep : ∀ fs', importVideoFiles false s d fs' (e :: rest)
              = importVideoFiles false s d fs' rest := by
            intro fs'
            rw [importVideoFiles, if_pos hf, hrs]
            dsimp only
            rw [if_neg (by simp [hz])]
          simp only [hstep]
          exact video_rerun rest s d fs
        | true =>
          have hstep : ∀ fs', importVideoFiles false s d fs' (e :: rest)
              = ((importVideoFiles false s d
                    (createHardLink false fs' (s ++ "/" ++ e.name)
                      (d ++ "/" ++ e.name)).1 rest).1,
                 (createHardLink false fs' (s ++ "/" ++ e.name)
                    (d ++ "/" ++ e.name)).2
                   ++ (importVideoFiles false s d
                        (createHardLink false fs' (s ++ "/" ++ e.name)
                          (d ++ "/" ++ e.name)).1 rest).2.1,
                 (importVideoFiles false s d
                    (createHardLink false fs' (s ++ "/" ++ e.name)
                      (d ++ "/" ++ e.name)).1 rest).2.2) := by
            intro fs'
            rw [importVideoFiles, if_pos hf, hrs]
            dsimp only
            rw [if_pos hz]
          simp only [hstep]
          have hdst : (d ++ "/" ++ e.name)
              ∈ (importVideoFiles false s d
                  (createHardLink false fs (s ++ "/" ++ e.name)
                    (d ++ "/" ++ e.name)).1 rest).1.files :=
            video_files_mono rest false s d _ _
              (createHardLink_dest_mem fs (s ++ "/" ++ e.name) (d ++ "/" ++ e.name))
          rw [createHardLink_exists _ _ _ hdst]
          dsimp only
          rw [video_rerun rest s d
            (createHardLink false fs (s ++ "/" ++ e.name) (d ++ "/" ++ e.name)).1]
          rw [List.map_append, createHardLink_log_rerun]

/-- C9: running the import a second time against the destination state left
by a first run changes nothing on the filesystem, decides the uncaught video
error identically, and logs exactly the first run's link attempts turned
into per-file already-exists warnings — and every such re-run log event IS an
already-exists warning. -/
theorem import_rerun_idempotent :
    (∀ (depId dd ds dv : String) (src : ImportSrc) (fs0 : FS),
      importPhase false depId dd ds dv src
          (importPhase false depId dd ds dv src fs0).1
        = ((importPhase false depId dd ds dv src fs0).1,
           (importPhase false depId dd ds dv src fs0).2.1.map logAsRerun,
           (importPhase false depId dd ds dv src fs0).2.2)) ∧
    (∀ (l : List LogEvent) (e : LogEvent),
      e ∈ l.map logAsRerun → ∃ dst, e = LogEvent.alreadyExists dst) := by
  constructor
  · intro depId dd ds dv src fs0
    have hunfold : ∀ fs : FS, importPhase false depId dd ds dv src fs
        = ((importVideoFiles false src.srcVideo dv
              (linkAll false
                (linkAll false (mkdirP (mkdirP (mkdirP fs dd) ds) dv)
                  (dataLinkPairs src.srcData dd depId src.dataListing)).1
                (stillLinkPairs src.srcStills ds src.stillsListing)).1
              src.videoListing).1,
           ((linkAll false (mkdirP (mkdirP (mkdirP fs dd) ds) dv)
              (dataLinkPairs src.srcData dd depId src.dataListing)).2
             ++ (linkAll false
                  (linkAll false (mkdirP (mkdirP (mkdirP fs dd) ds) dv)
                    (dataLinkPairs src.srcData dd depId src.dataListing)).1
                  (stillLinkPairs src.srcStills ds src.stillsListing)).2)
               ++ (importVideoFiles false src.srcVideo dv
                    (linkAll false
                      (linkAll false (mkdirP (mkdirP (mkdirP fs dd) ds) dv)
                        (dataLinkPairs src.srcData dd depId src.dataListing)).1
                      (stillLinkPairs src.srcStills ds src.stillsListing)).1
                    src.videoListing).2.1,
           (importVideoFiles false src.srcVideo dv
              (linkAll false
                (linkAll false (mkdirP (mkdirP (mkdirP fs dd) ds) dv)
                  (dataLinkPairs src.srcData dd depId src.dataListing)).1
                (stillLinkPairs src.srcStills ds src.stillsListing)).1
              src.videoListing).2.2) := fun _ => rfl
    simp only [hunfold]
    set fs1 := mkdirP (mkdirP (mkdirP fs0 dd) ds) dv with hfs1
    set dp := dataLinkPairs src.srcData dd depId src.dataListing with hdp
    set sp := stillLinkPairs src.srcStills ds src.stillsListing with hsp
    set vl := src.videoListing with hvl
    set sv := src.srcVideo with hsv
    set A2 := linkAll false fs1 dp with hA2
    set A3 := linkAll false A2.1 sp with hA3
    set A4 := importVideoFiles false sv dv A3.1 vl with hA4
    -- the three destination directories are in the final dirs
    have hdirs : A4.1.dirs = fs1.dirs := by
      rw [hA4, video_dirs, hA3, linkAll_dirs, hA2, linkAll_dirs]
    have hdd : dd ∈ A4.1.dirs := by
      rw [hdirs, hfs1]
      exact mkdirP_dirs_mono _ _ _ (mkdirP_dirs_mono _ _ _ (mem_mkdirP_dirs fs0 dd))
    have hds : ds ∈ A4.1.dirs := by
      rw [hdirs, hfs1]
      exact mkdirP_dirs_mono _ _ _ (mem_mkdirP_dirs (mkdirP fs0 dd) ds)
    have hdv : dv ∈ A4.1.dirs := by
      rw [hdirs, hfs1]
      exact mem_mkdirP_dirs _ dv
    have hmk : mkdirP (mkdirP (mkdirP A4.1 dd) ds) dv = A4.1 := by
      rw [mkdirP_of_mem A4.1 dd hdd, mkdirP_of_mem A4.1 ds hds,
        mkdirP_of_mem A4.1 dv hdv]
    -- every destination attempted in run 1 exists in the final state
    have hdata_mem : ∀ p ∈ dp, p.2 ∈ A4.1.files := by
      intro p hp
      rw [hA4]
      refine video_files_mono vl false sv dv A3.1 p.2 ?_
      rw [hA3]
      exact linkAll_files_mono sp false A2.1 p.2 (by rw [hA2]; exact linkAll_dests_mem dp fs1 p hp)
    have hstills_mem : ∀ p ∈ sp, p.2 ∈ A4.1.files := by
      intro p hp
      rw [hA4]
      refine video_files_mono vl false sv dv A3.1 p.2 ?_
      rw [hA3]
      exact linkAll_dests_mem sp A2.1 p hp
    -- the second run's three phases
    have hrun2data : linkAll false A4.1 dp
        = (A4.1, dp.map fun p => LogEvent.alreadyExists p.2) :=
      linkAll_all_exists dp A4.1 hdata_mem
    have hrun2stills : linkAll false A4.1 sp
        = (A4.1, sp.map fun p => LogEvent.alreadyExists p.2) :=
      linkAll_all_exists sp A4.1 hstills_mem
    have hrun2video : importVideoFiles false sv dv A4.1 vl
        = (A4.1, A4.2.1.map logAsRerun, A4.2.2) := by
      rw [hA4]
      exact video_rerun vl sv dv A3.1
    rw [hmk, hrun2data]
    dsimp only
    rw [hrun2stills]
    dsimp only
    rw [hrun2video]
    dsimp only
    rw [List.map_append, List.map_append]
    rw [show A2.2.map logAsRerun = dp.map fun p => LogEvent.alreadyExists p.2 from
      by rw [hA2]; exact linkAll_log_rerun dp fs1]
    rw [show A3.2.map logAsRerun = sp.map fun p => LogEvent.alreadyExists p.2 from
      by rw [hA3]; exact linkAll_log_rerun sp A2.1]
  · intro l e he
    obtain ⟨a, -, rfl⟩ := List.mem_map.mp he
    cases a with
    | createdLink src dst => exact ⟨dst, rfl⟩
    | alreadyExists dst => exact ⟨dst, rfl⟩

/-- Witness for C9 at a concrete input. -/
theorem import_rerun_idempotent_witness :
    ∃ dst, LogEvent.alreadyExists "d/stills/A.JPG"
      = LogEvent.alreadyExists dst :=
  import_rerun_idempotent.2 [LogEvent.createdLink "s/stills/A.JPG" "d/stills/A.JPG"]
    (LogEvent.alreadyExists "d/stills/A.JPG") (by simp [logAsRerun])

end TowedCamera
